import Mathlib

/-!
Shallow embedding of the component-management core of the bog-cli repository
(GTBitsOfGood/bog-cli): the design-system `edit` command pipeline in
`src/design-system/commands/edit.ts`, the removal loop of
`src/design-system/commands/remove.ts`, and the config helpers in
`src/config-utils.ts`.

Modelling conventions:
  - A JS object `{ [key: string]: { version: string } }` is an association
    list `List (String × String)` from component identifier to version;
    property lookup is first-match lookup, property assignment replaces the
    entry in place when the key is present and appends otherwise, `delete`
    filters the key out.
  - The filesystem is a pair of a directory list and a file association
    list (path to contents); `existsSync` is list membership, `mkdirSync`
    conses the directory, `writeFileSync` replaces any entry at the path.
  - `fetch` outcomes are an oracle `String → Option String` from URL to
    response body; `none` models a rejected promise or a non-`ok` response
    (the code treats both as failure of the surrounding `try` block).
  - `writeFileSync` failures are an oracle `String → Bool` from path to
    success; a `false` models a throw, which the code catches at the same
    per-component boundary as fetch failures.
  - `path.join a b` is modelled as `a ++ "/" ++ b` (no normalisation; the
    code only joins well-formed relative segments).
  - Console logging (`logInfo`, `logError`, ...) is modelled only where a
    claim observes it (`readBogConfig`), as a list of emitted messages.
-/

/-- The fixed remote base URL from `src/config.ts` (`BASE_URL`). -/
def BASE_URL : String :=
  "https://raw.githubusercontent.com/GTBitsOfGood/design-system"

/-- The fixed manifest filename from `src/config.ts` (`CONFIG_FILE_NAME`). -/
def CONFIG_FILE_NAME : String := "bog.json"

/-- The compiled-in catalog of component identifiers from `src/config.ts`
(`COMPONENTS`). -/
def COMPONENTS : List String :=
  ["checkbox", "radio-group", "radio-item", "button", "icon", "form",
   "switch", "text-input", "dropdown"]

/-- The manifest type from `src/bog-config.ts` (`BogConfig`): the
`"design-system"` object flattened to its two fields, with the
`components` object as an association list from identifier to its recorded
`version` string. -/
structure BogConfig where
  path : String
  components : List (String × String)
deriving DecidableEq, Repr

/-- JS property read `components[c]?.version`: first entry whose key is `c`,
`none` for the `undefined` of a missing key. -/
def lookupVersion : List (String × String) → String → Option String
  | [], _ => none
  | (k, v) :: rest, c => if k = c then some v else lookupVersion rest c

/-- JS property assignment `components[c] = \x7bversion: v\x7d`: replaces the
entry in place when the key is present, appends otherwise. -/
def setComponent (comps : List (String × String)) (c v : String) :
    List (String × String) :=
  if comps.any (fun p => p.1 = c) then
    comps.map (fun p => if p.1 = c then (c, v) else p)
  else
    comps ++ [(c, v)]

/-- JS `delete components[c]`. -/
def deleteComponent (comps : List (String × String)) (c : String) :
    List (String × String) :=
  comps.filter (fun p => p.1 ≠ c)

/-- JS `component.split("-")` on the character list: splits at every dash,
keeping empty words, as `String.prototype.split` does. -/
def splitDash : List Char → List (List Char)
  | [] => [[]]
  | c :: rest =>
    if c = '-' then [] :: splitDash rest
    else
      match splitDash rest with
      | [] => [[c]]
      | w :: ws => (c :: w) :: ws

/-- JS `part.charAt(0).toUpperCase() + part.slice(1)` (identifiers are
ASCII, where `Char.toUpper` agrees with `String.prototype.toUpperCase`). -/
def capitalizeWord : List Char → List Char
  | [] => []
  | c :: cs => c.toUpper :: cs

/-- The folder-name transform as written in `addComponents`
(`src/design-system/commands/edit.ts`, lines 359-362): `"Bog"` followed by
the dash-split words of the identifier, each with its first character
upper-cased, joined with no separator. -/
def folderName (component : String) : String :=
  "Bog" ++ String.mk (List.flatten ((splitDash component.data).map capitalizeWord))

/-- The identical transform as written a second time in `removeComponents`
(`src/design-system/commands/edit.ts`, lines 410-413). -/
def folderNameRemove (component : String) : String :=
  "Bog" ++ String.mk (List.flatten ((splitDash component.data).map capitalizeWord))

/-- The identical transform as written a third time in the removal loop of
`src/design-system/commands/remove.ts`, lines 96-99. -/
def folderNameRemoveCommand (component : String) : String :=
  "Bog" ++ String.mk (List.flatten ((splitDash component.data).map capitalizeWord))

/-- `path.join` for the well-formed relative segments the code joins. -/
def pathJoin (a b : String) : String := a ++ "/" ++ b

/-- The URL of a component source file fetched by `addComponents`
(`edit.ts` lines 370-372). -/
def componentUrl (component : String) : String :=
  BASE_URL ++ "/refs/heads/production/src/components/" ++ folderName component
    ++ "/" ++ folderName component ++ ".tsx"

/-- The URL of a component stylesheet fetched by `addComponents`
(`edit.ts` lines 373-375). -/
def stylesUrl (component : String) : String :=
  BASE_URL ++ "/refs/heads/production/src/components/" ++ folderName component
    ++ "/styles.module.css"

/-- The filesystem as the code observes it: directories that exist and a
path-to-contents association list for files. -/
structure FS where
  dirs : List String
  files : List (String × String)
deriving DecidableEq, Repr

/-- `fs.existsSync` on a directory path. -/
def FS.existsDir (fs : FS) (d : String) : Bool := fs.dirs.contains d

/-- `fs.mkdirSync(d, \x7brecursive: true\x7d)`. -/
def FS.mkdir (fs : FS) (d : String) : FS := { fs with dirs := d :: fs.dirs }

/-- `fs.writeFileSync(p, content)`: creates or overwrites the file at `p`. -/
def FS.writeFile (fs : FS) (p content : String) : FS :=
  { fs with files := (p, content) :: fs.files.filter (fun q => q.1 ≠ p) }

/-- `fs.rmSync(d, \x7brecursive: true, force: true\x7d)`: removes the
directory and every file under it. -/
def FS.rmDir (fs : FS) (d : String) : FS :=
  { dirs := fs.dirs.filter (fun e => e ≠ d),
    files := fs.files.filter (fun q => ¬ (d ++ "/").isPrefixOf q.1) }

/-- One iteration of the `for (const component of components)` loop of
`addComponents` (`edit.ts` lines 358-396): derive the folder name and
destination path, create the destination directory if absent, fetch the
source and stylesheet; when both respond `ok` write both files and set the
manifest entry to the current version; any fetch or write failure is caught
at this boundary, leaving the manifest and the written files of this
component untouched. `fetcher` maps a URL to its body (`none` is a network
failure or a non-`ok` status); `writeOk` tells whether a `writeFileSync` at
a path succeeds. -/
def addOne (installPath currentVersion : String)
    (fetcher : String → Option String) (writeOk : String → Bool)
    (st : BogConfig × FS) (component : String) : BogConfig × FS :=
  let destPath := pathJoin installPath (folderName component)
  let fs1 := if st.2.existsDir destPath then st.2 else st.2.mkdir destPath
  match fetcher (componentUrl component), fetcher (stylesUrl component) with
  | some componentText, some stylesText =>
    let tsxPath := pathJoin destPath (folderName component ++ ".tsx")
    let cssPath := pathJoin destPath "styles.module.css"
    if writeOk tsxPath then
      let fs2 := fs1.writeFile tsxPath componentText
      if writeOk cssPath then
        ({ st.1 with
            components := setComponent st.1.components component currentVersion },
          fs2.writeFile cssPath stylesText)
      else
        (st.1, fs2)
    else
      (st.1, fs1)
  | _, _ => (st.1, fs1)

/-- `addComponents` (`edit.ts` lines 343-397): create the install directory
if absent, then process each component in order through `addOne`. -/
def addComponents (components : List String) (installPath : String)
    (config : BogConfig) (currentVersion : String)
    (fetcher : String → Option String) (writeOk : String → Bool)
    (fs : FS) : BogConfig × FS :=
  let fs0 := if fs.existsDir installPath then fs else fs.mkdir installPath
  components.foldl (addOne installPath currentVersion fetcher writeOk)
    (config, fs0)

/-- Whether `addOne` reaches the manifest update for a component: both
fetches return a body and both file writes succeed. -/
def addSucceeds (installPath : String) (fetcher : String → Option String)
    (writeOk : String → Bool) (component : String) : Bool :=
  let destPath := pathJoin installPath (folderName component)
  (fetcher (componentUrl component)).isSome
    && (fetcher (stylesUrl component)).isSome
    && writeOk (pathJoin destPath (folderName component ++ ".tsx"))
    && writeOk (pathJoin destPath "styles.module.css")

/-- One iteration of the loop of `removeComponents` (`edit.ts` lines
409-432): if the component directory exists remove it recursively,
otherwise only warn; in either case delete the manifest entry. -/
def removeOne (installPath : String) (st : BogConfig × FS)
    (component : String) : BogConfig × FS :=
  let destPath := pathJoin installPath (folderNameRemove component)
  let fs1 := if st.2.existsDir destPath then st.2.rmDir destPath else st.2
  ({ st.1 with components := deleteComponent st.1.components component }, fs1)

/-- `removeComponents` (`edit.ts` lines 402-435): process each component in
order through `removeOne`. The identical loop of `remove.ts` lines 95-118
is the same function. -/
def removeComponents (components : List String) (installPath : String)
    (config : BogConfig) (fs : FS) : BogConfig × FS :=
  components.foldl (removeOne installPath) (config, fs)

/-- `Object.keys(config["design-system"].components)` (`edit.ts` lines
99-101). -/
def existingComponents (config : BogConfig) : List String :=
  config.components.map Prod.fst

/-- `config["design-system"].components[comp]?.version` as used in the
outdated filter. -/
def installedVersion (config : BogConfig) (c : String) : Option String :=
  lookupVersion config.components c

/-- `outdatedComponents` (`edit.ts` lines 120-124): the installed
identifiers whose recorded version differs (`!==`) from the current remote
version. -/
def outdatedComponents (config : BogConfig) (currentVersion : String) :
    List String :=
  (existingComponents config).filter
    (fun comp => installedVersion config comp ≠ some currentVersion)

/-- The ephemeral reconciliation plan of one `edit` run. -/
structure Plan where
  toAdd : List String
  toUpdate : List String
  toRemove : List String
deriving DecidableEq, Repr

/-- The plan computed by the `edit` action: `componentsToUpdate` is the
user selection of the update multiselect (`edit.ts` lines 127-175, offered
over `outdatedComponents` and taken verbatim), and `componentsToAdd` and
`componentsToRemove` are the filters of lines 219-224 over the desired
selection `selectedComponents` of the unified multiselect. -/
def editPlan (config : BogConfig) (selectedUpdates selectedComponents :
    List String) : Plan :=
  { toAdd := selectedComponents.filter
      (fun comp => ¬ (existingComponents config).contains comp)
    toUpdate := selectedUpdates
    toRemove := (existingComponents config).filter
      (fun comp => ¬ selectedComponents.contains comp) }

/-- `readBogConfig` (`src/config-utils.ts` lines 10-24) with its observable
console output: `fileContents` models `existsSync` plus `readFileSync`
(`none` when the file is missing), `parseJson` models `JSON.parse` (with
the thrown message on failure). A missing file returns `null` silently; a
read that throws is caught, logged through `logError`, and returns `null`. -/
def readBogConfig (fileContents : Option String)
    (parseJson : String → Except String BogConfig) :
    Option BogConfig × List String :=
  match fileContents with
  | none => (none, [])
  | some contents =>
    match parseJson contents with
    | Except.ok cfg => (some cfg, [])
    | Except.error e =>
      (none, ["Failed to read " ++ CONFIG_FILE_NAME ++ ": " ++ e])

/-- `getDesignSystemVersion` (`src/config-utils.ts` lines 70-84):
`fetchResult` is `none` for a rejected `fetch` and otherwise carries the
`ok` flag and body; `parseVersion` models `response.json()` plus reading
the `version` field (`none` when the body is not valid JSON, which makes
`response.json()` throw). Every failure path lands in the `catch` and
returns the sentinel string. -/
def getDesignSystemVersion (fetchResult : Option (Bool × String))
    (parseVersion : String → Option String) : String :=
  match fetchResult with
  | none => "unknown"
  | some (ok, body) =>
    if ok then
      match parseVersion body with
      | some v => v
      | none => "unknown"
    else "unknown"

/-!
Helper lemmas about the association-list operations and the two batch
loops. These are shared infrastructure, not claim theorems.
-/

lemma lookupVersion_eq_none (comps : List (String × String)) (c : String)
    (h : comps.any (fun p => p.1 = c) = false) : lookupVersion comps c = none := by
  induction comps with
  | nil => rfl
  | cons p rest ih =>
    simp only [List.any_cons, Bool.or_eq_false_iff, decide_eq_false_iff_not] at h
    simp [lookupVersion, h.1, ih h.2]

lemma lookupVersion_append (l1 l2 : List (String × String)) (d : String) :
    lookupVersion (l1 ++ l2) d =
      ((lookupVersion l1 d).map some).getD (lookupVersion l2 d) := by
  induction l1 with
  | nil => simp [lookupVersion]
  | cons p rest ih =>
    by_cases hd : p.1 = d
    · simp [lookupVersion, hd]
    · simp [lookupVersion, hd, ih]

lemma lookupVersion_cons (k w d : String) (rest : List (String × String)) :
    lookupVersion ((k, w) :: rest) d =
      if k = d then some w else lookupVersion rest d := rfl

lemma lookupVersion_map_set_ne (comps : List (String × String)) (c v d : String)
    (hdc : d ≠ c) :
    lookupVersion (comps.map (fun p => if p.1 = c then (c, v) else p)) d =
      lookupVersion comps d := by
  induction comps with
  | nil => rfl
  | cons p rest ih =>
    obtain ⟨k, w⟩ := p
    rw [List.map_cons]
    by_cases hkc : k = c
    · have hhead : (if (k, w).1 = c then (c, v) else (k, w)) = (c, v) := if_pos hkc
      rw [hhead, lookupVersion_cons, lookupVersion_cons,
        if_neg (fun h : c = d => hdc h.symm),
        if_neg (fun h : k = d => hdc (h.symm.trans hkc))]
      exact ih
    · have hhead : (if (k, w).1 = c then (c, v) else (k, w)) = (k, w) := if_neg hkc
      rw [hhead, lookupVersion_cons, lookupVersion_cons]
      by_cases hkd : k = d
      · rw [if_pos hkd, if_pos hkd]
      · rw [if_neg hkd, if_neg hkd]
        exact ih

lemma lookupVersion_map_set_eq (comps : List (String × String)) (c v : String)
    (h : comps.any (fun p => p.1 = c) = true) :
    lookupVersion (comps.map (fun p => if p.1 = c then (c, v) else p)) c =
      some v := by
  induction comps with
  | nil => simp at h
  | cons p rest ih =>
    obtain ⟨k, w⟩ := p
    rw [List.map_cons]
    by_cases hkc : k = c
    · have hhead : (if (k, w).1 = c then (c, v) else (k, w)) = (c, v) := if_pos hkc
      rw [hhead, lookupVersion_cons, if_pos rfl]
    · simp only [List.any_cons, Bool.or_eq_true, decide_eq_true_eq] at h
      rcases h with h | h
      · exact absurd h hkc
      · have hhead : (if (k, w).1 = c then (c, v) else (k, w)) = (k, w) := if_neg hkc
        rw [hhead, lookupVersion_cons, if_neg hkc]
        exact ih h

lemma lookupVersion_setComponent (comps : List (String × String)) (c v d : String) :
    lookupVersion (setComponent comps c v) d =
      if d = c then some v else lookupVersion comps d := by
  unfold setComponent
  by_cases hany : comps.any (fun p => p.1 = c) = true
  · rw [if_pos hany]
    by_cases hdc : d = c
    · subst hdc
      rw [if_pos rfl, lookupVersion_map_set_eq comps d v hany]
    · rw [if_neg hdc, lookupVersion_map_set_ne comps c v d hdc]
  · rw [if_neg hany, lookupVersion_append]
    have hnone := lookupVersion_eq_none comps c (Bool.eq_false_iff.mpr hany)
    by_cases hdc : d = c
    · subst hdc
      simp [hnone, lookupVersion]
    · cases hfound : lookupVersion comps d with
      | some w => simp [hfound, hdc]
      | none => simp [hfound, lookupVersion, hdc, Ne.symm hdc]

lemma lookupVersion_deleteComponent (comps : List (String × String)) (c d : String) :
    lookupVersion (deleteComponent comps c) d =
      if d = c then none else lookupVersion comps d := by
  induction comps with
  | nil => simp [deleteComponent, lookupVersion]
  | cons p rest ih =>
    obtain ⟨k, w⟩ := p
    unfold deleteComponent at ih ⊢
    rw [List.filter_cons]
    by_cases hkc : k = c
    · rw [if_neg (by simp [hkc]), ih]
      by_cases hdc : d = c
      · rw [if_pos hdc, if_pos hdc]
      · rw [if_neg hdc, if_neg hdc, lookupVersion_cons,
          if_neg (fun h : k = d => hdc (h.symm.trans hkc))]
    · rw [if_pos (by simp [hkc]), lookupVersion_cons]
      by_cases hkd : k = d
      · rw [if_pos hkd, if_neg (fun h : d = c => hkc (hkd.trans h)),
          lookupVersion_cons, if_pos hkd]
      · rw [if_neg hkd, ih]
        by_cases hdc : d = c
        · rw [if_pos hdc, if_pos hdc]
        · rw [if_neg hdc, if_neg hdc, lookupVersion_cons, if_neg hkd]

lemma mem_keys_of_lookupVersion (comps : List (String × String)) (c v : String)
    (h : lookupVersion comps c = some v) : c ∈ comps.map Prod.fst := by
  induction comps with
  | nil => simp [lookupVersion] at h
  | cons p rest ih =>
    simp only [lookupVersion] at h
    by_cases hpc : p.1 = c
    · simp [hpc]
    · rw [if_neg hpc] at h
      simp [ih h]

lemma addOne_fst (installPath currentVersion : String)
    (fetcher : String → Option String) (writeOk : String → Bool)
    (st : BogConfig × FS) (component : String) :
    (addOne installPath currentVersion fetcher writeOk st component).1 =
      if addSucceeds installPath fetcher writeOk component = true then
        { st.1 with
            components := setComponent st.1.components component currentVersion }
      else st.1 := by
  unfold addOne addSucceeds
  cases hf1 : fetcher (componentUrl component) with
  | none => simp [hf1]
  | some t =>
    cases hf2 : fetcher (stylesUrl component) with
    | none => simp [hf1, hf2]
    | some s =>
      simp only [hf1, hf2, Option.isSome_some, Bool.true_and]
      by_cases hw1 : writeOk (pathJoin (pathJoin installPath (folderName component))
          (folderName component ++ ".tsx")) = true
      · by_cases hw2 : writeOk (pathJoin (pathJoin installPath (folderName component))
            "styles.module.css") = true
        · simp [hw1, hw2]
        · simp [hw1, hw2]
      · simp [hw1]

lemma foldl_addOne_lookup (installPath currentVersion : String)
    (fetcher : String → Option String) (writeOk : String → Bool)
    (comps : List String) (st : BogConfig × FS) (d : String) :
    lookupVersion (comps.foldl
        (addOne installPath currentVersion fetcher writeOk) st).1.components d =
      if d ∈ comps ∧ addSucceeds installPath fetcher writeOk d = true then
        some currentVersion
      else lookupVersion st.1.components d := by
  induction comps generalizing st with
  | nil => simp
  | cons c rest ih =>
    rw [List.foldl_cons, ih]
    by_cases hrest : d ∈ rest ∧ addSucceeds installPath fetcher writeOk d = true
    · rw [if_pos hrest, if_pos ⟨List.mem_cons_of_mem c hrest.1, hrest.2⟩]
    · rw [if_neg hrest, addOne_fst]
      by_cases hc : addSucceeds installPath fetcher writeOk c = true
      · rw [if_pos hc]
        show lookupVersion (setComponent st.1.components c currentVersion) d = _
        rw [lookupVersion_setComponent]
        by_cases hdc : d = c
        · subst hdc
          rw [if_pos rfl, if_pos ⟨List.mem_cons_self d rest, hc⟩]
        · rw [if_neg hdc,
            if_neg (fun h => hrest ⟨(List.mem_cons.mp h.1).resolve_left hdc, h.2⟩)]
      · rw [if_neg hc]
        have hno : ¬ (d ∈ c :: rest ∧
            addSucceeds installPath fetcher writeOk d = true) := by
          rintro ⟨hmem, hsucc⟩
          rcases List.mem_cons.mp hmem with h | h
          · exact hc (h ▸ hsucc)
          · exact hrest ⟨h, hsucc⟩
        rw [if_neg hno]

lemma addComponents_lookup (comps : List String) (installPath : String)
    (config : BogConfig) (currentVersion : String)
    (fetcher : String → Option String) (writeOk : String → Bool) (fs : FS)
    (d : String) :
    lookupVersion (addComponents comps installPath config currentVersion
        fetcher writeOk fs).1.components d =
      if d ∈ comps ∧ addSucceeds installPath fetcher writeOk d = true then
        some currentVersion
      else lookupVersion config.components d := by
  unfold addComponents
  rw [foldl_addOne_lookup]

lemma removeOne_fst (installPath : String) (st : BogConfig × FS)
    (component : String) :
    (removeOne installPath st component).1 =
      { st.1 with components := deleteComponent st.1.components component } := rfl

lemma foldl_removeOne_lookup (installPath : String) (comps : List String)
    (st : BogConfig × FS) (d : String) :
    lookupVersion (comps.foldl (removeOne installPath) st).1.components d =
      if d ∈ comps then none else lookupVersion st.1.components d := by
  induction comps generalizing st with
  | nil => simp
  | cons c rest ih =>
    rw [List.foldl_cons, ih]
    by_cases hrest : d ∈ rest
    · rw [if_pos hrest, if_pos (List.mem_cons_of_mem c hrest)]
    · rw [if_neg hrest, removeOne_fst]
      show lookupVersion (deleteComponent st.1.components c) d = _
      rw [lookupVersion_deleteComponent]
      by_cases hdc : d = c
      · subst hdc
        rw [if_pos rfl, if_pos (List.mem_cons_self d rest)]
      · rw [if_neg hdc,
          if_neg (fun h => hrest ((List.mem_cons.mp h).resolve_left hdc))]

lemma removeComponents_lookup (comps : List String) (installPath : String)
    (config : BogConfig) (fs : FS) (d : String) :
    lookupVersion (removeComponents comps installPath config fs).1.components d =
      if d ∈ comps then none else lookupVersion config.components d := by
  unfold removeComponents
  rw [foldl_removeOne_lookup]

/-!
Claim theorems.
-/

/-- C1 counterexample: the claim that `toUpdate` contains only desired
identifiers is false as stated. With manifest `{button: 1.0.0}`, remote
version `2.0.0`, a legitimate update selection `[button]` (a subset of the
offered outdated components), and desired set `{}` (the user unselects
`button` in the unified multiselect), `button` is in `toUpdate` although it
is not desired. -/
theorem c1_toUpdate_not_desired_counterexample :
    (∀ c ∈ (["button"] : List String),
      c ∈ outdatedComponents ⟨"src/components", [("button", "1.0.0")]⟩ "2.0.0") ∧
    "button" ∈ (editPlan ⟨"src/components", [("button", "1.0.0")]⟩
      ["button"] []).toUpdate ∧
    ¬ (∀ c ∈ (editPlan ⟨"src/components", [("button", "1.0.0")]⟩
      ["button"] []).toUpdate, c ∈ ([] : List String)) := by decide

/-- C1 (amended): `toAdd` is exactly the desired identifiers not among the
manifest keys and `toRemove` is exactly the manifest keys not desired, as
claimed; `toUpdate` (the user selection over the outdated prompt) contains
only identifiers present in the manifest with recorded version different
from the remote version, but need not be contained in the desired set. The
scenario of the claim holds when the user selects no updates. -/
theorem c1_edit_plan_characterization (config : BogConfig)
    (currentVersion : String) (selectedUpdates selectedComponents : List String)
    (hsel : ∀ c ∈ selectedUpdates, c ∈ outdatedComponents config currentVersion) :
    (∀ c, c ∈ (editPlan config selectedUpdates selectedComponents).toAdd ↔
      c ∈ selectedComponents ∧ c ∉ existingComponents config) ∧
    (∀ c, c ∈ (editPlan config selectedUpdates selectedComponents).toRemove ↔
      c ∈ existingComponents config ∧ c ∉ selectedComponents) ∧
    (∀ c, c ∈ (editPlan config selectedUpdates selectedComponents).toUpdate →
      c ∈ existingComponents config ∧
        installedVersion config c ≠ some currentVersion) ∧
    editPlan ⟨"src/components", [("button", "1.0.0"), ("switch", "2.0.0")]⟩
        [] ["switch", "form"] = ⟨["form"], [], ["button"]⟩ := by
  refine ⟨?_, ?_, ?_, by decide⟩
  · intro c
    simp [editPlan, List.mem_filter]
  · intro c
    simp [editPlan, List.mem_filter]
  · intro c hc
    have houtd := hsel c hc
    unfold outdatedComponents at houtd
    rw [List.mem_filter] at houtd
    exact ⟨houtd.1, by simpa using houtd.2⟩

/-- C1 witness: the characterization applied to the scenario input of the
claim, with the empty update selection. -/
theorem c1_edit_plan_characterization_witness :
    (∀ c, c ∈ (editPlan ⟨"src/components",
        [("button", "1.0.0"), ("switch", "2.0.0")]⟩ [] ["switch", "form"]).toAdd ↔
      c ∈ ["switch", "form"] ∧
        c ∉ existingComponents ⟨"src/components",
          [("button", "1.0.0"), ("switch", "2.0.0")]⟩) ∧
    (∀ c, c ∈ (editPlan ⟨"src/components",
        [("button", "1.0.0"), ("switch", "2.0.0")]⟩ [] ["switch", "form"]).toRemove ↔
      c ∈ existingComponents ⟨"src/components",
          [("button", "1.0.0"), ("switch", "2.0.0")]⟩ ∧ c ∉ ["switch", "form"]) ∧
    (∀ c, c ∈ (editPlan ⟨"src/components",
        [("button", "1.0.0"), ("switch", "2.0.0")]⟩ [] ["switch", "form"]).toUpdate →
      c ∈ existingComponents ⟨"src/components",
          [("button", "1.0.0"), ("switch", "2.0.0")]⟩ ∧
        installedVersion ⟨"src/components",
          [("button", "1.0.0"), ("switch", "2.0.0")]⟩ c ≠ some "2.0.0") ∧
    editPlan ⟨"src/components", [("button", "1.0.0"), ("switch", "2.0.0")]⟩
        [] ["switch", "form"] = ⟨["form"], [], ["button"]⟩ :=
  c1_edit_plan_characterization
    ⟨"src/components", [("button", "1.0.0"), ("switch", "2.0.0")]⟩
    "2.0.0" [] ["switch", "form"] (by decide)

/-- C2 counterexample: the three plan sets are not always pairwise
disjoint. With manifest `{button: 1.0.0}`, remote version `2.0.0`, update
selection `[button]` (legitimate: `button` is outdated), and desired set
`{}`, the identifier `button` lies in both `toUpdate` and `toRemove`. -/
theorem c2_plan_overlap_counterexample :
    (∀ c ∈ (["button"] : List String),
      c ∈ outdatedComponents ⟨"src/components", [("button", "1.0.0")]⟩ "2.0.0") ∧
    "button" ∈ (editPlan ⟨"src/components", [("button", "1.0.0")]⟩
      ["button"] []).toUpdate ∧
    "button" ∈ (editPlan ⟨"src/components", [("button", "1.0.0")]⟩
      ["button"] []).toRemove := by decide

/-- C2 (amended): `toAdd` is always disjoint from `toUpdate` and from
`toRemove`; `toUpdate` and `toRemove` are disjoint whenever every
identifier selected for update is also in the desired target set (the code
never intersects the update selection with the desired set, so an outdated
component selected for update but deselected from the desired set appears
in both `toUpdate` and `toRemove`). -/
theorem c2_plan_disjointness (config : BogConfig) (currentVersion : String)
    (selectedUpdates selectedComponents : List String)
    (hsel : ∀ c ∈ selectedUpdates, c ∈ outdatedComponents config currentVersion) :
    (∀ c, c ∈ (editPlan config selectedUpdates selectedComponents).toAdd →
      c ∉ (editPlan config selectedUpdates selectedComponents).toUpdate) ∧
    (∀ c, c ∈ (editPlan config selectedUpdates selectedComponents).toAdd →
      c ∉ (editPlan config selectedUpdates selectedComponents).toRemove) ∧
    ((∀ c ∈ selectedUpdates, c ∈ selectedComponents) →
      ∀ c, c ∈ (editPlan config selectedUpdates selectedComponents).toUpdate →
        c ∉ (editPlan config selectedUpdates selectedComponents).toRemove) := by
  refine ⟨?_, ?_, ?_⟩
  · intro c hadd hupd
    have hnex : c ∉ existingComponents config := by
      simp [editPlan, List.mem_filter] at hadd
      exact hadd.2
    have hex : c ∈ existingComponents config := by
      have houtd := hsel c hupd
      unfold outdatedComponents at houtd
      exact (List.mem_filter.mp houtd).1
    exact hnex hex
  · intro c hadd hrem
    have hnex : c ∉ existingComponents config := by
      simp [editPlan, List.mem_filter] at hadd
      exact hadd.2
    have hex : c ∈ existingComponents config := by
      simp [editPlan, List.mem_filter] at hrem
      exact hrem.1
    exact hnex hex
  · intro hdesired c hupd hrem
    have hmem : c ∈ selectedComponents := hdesired c hupd
    simp [editPlan, List.mem_filter] at hrem
    exact hrem.2 hmem

/-- C2 witness: the disjointness statement at the counterexample-adjacent
input where the update selection is contained in the desired set. -/
theorem c2_plan_disjointness_witness :
    (∀ c, c ∈ (editPlan ⟨"src/components", [("button", "1.0.0")]⟩
        ["button"] ["button", "form"]).toAdd →
      c ∉ (editPlan ⟨"src/components", [("button", "1.0.0")]⟩
        ["button"] ["button", "form"]).toUpdate) ∧
    (∀ c, c ∈ (editPlan ⟨"src/components", [("button", "1.0.0")]⟩
        ["button"] ["button", "form"]).toAdd →
      c ∉ (editPlan ⟨"src/components", [("button", "1.0.0")]⟩
        ["button"] ["button", "form"]).toRemove) ∧
    ((∀ c ∈ (["button"] : List String), c ∈ (["button", "form"] : List String)) →
      ∀ c, c ∈ (editPlan ⟨"src/components", [("button", "1.0.0")]⟩
        ["button"] ["button", "form"]).toUpdate →
        c ∉ (editPlan ⟨"src/components", [("button", "1.0.0")]⟩
          ["button"] ["button", "form"]).toRemove) :=
  c2_plan_disjointness ⟨"src/components", [("button", "1.0.0")]⟩ "2.0.0"
    ["button"] ["button", "form"] (by decide)

/-- C3: if fetching either of the two files of a component fails, the
processing of that component writes no file and leaves the manifest
untouched, and after any batch containing it the component's entry equals
what it was before the batch (absent unless already present). -/
theorem c3_no_partial_install (installPath currentVersion : String)
    (fetcher : String → Option String) (writeOk : String → Bool)
    (config : BogConfig) (fs : FS) (component : String) (comps : List String)
    (hfail : fetcher (componentUrl component) = none ∨
      fetcher (stylesUrl component) = none) :
    (addOne installPath currentVersion fetcher writeOk (config, fs)
      component).1 = config ∧
    (addOne installPath currentVersion fetcher writeOk (config, fs)
      component).2.files = fs.files ∧
    lookupVersion (addComponents comps installPath config currentVersion
        fetcher writeOk fs).1.components component =
      lookupVersion config.components component := by
  have hsucc : addSucceeds installPath fetcher writeOk component = false := by
    unfold addSucceeds
    rcases hfail with h | h <;> simp [h]
  refine ⟨?_, ?_, ?_⟩
  · rw [addOne_fst, if_neg (by simp [hsucc])]
  · unfold addOne
    cases h1 : fetcher (componentUrl component) with
    | none =>
      simp only [h1]
      split <;> rfl
    | some t =>
      cases h2 : fetcher (stylesUrl component) with
      | none =>
        simp only [h1, h2]
        split <;> rfl
      | some s =>
        rcases hfail with h | h
        · exact absurd h1 (by rw [h]; exact fun hx => Option.noConfusion hx)
        · exact absurd h2 (by rw [h]; exact fun hx => Option.noConfusion hx)
  · rw [addComponents_lookup, if_neg (fun h => by simp [hsucc] at h)]

/-- C3 witness: a concrete component whose stylesheet fetch fails while the
source fetch succeeds; nothing is written and the batch manifest is
unchanged. -/
theorem c3_no_partial_install_witness :
    (addOne "proj/src/components" "2.0.0"
      (fun url => if url = componentUrl "form" then some "form-source" else none)
      (fun _ => true)
      (⟨"src/components", [("switch", "2.0.0")]⟩, ⟨[], []⟩) "form").1 =
      ⟨"src/components", [("switch", "2.0.0")]⟩ ∧
    (addOne "proj/src/components" "2.0.0"
      (fun url => if url = componentUrl "form" then some "form-source" else none)
      (fun _ => true)
      (⟨"src/components", [("switch", "2.0.0")]⟩, ⟨[], []⟩) "form").2.files =
      (⟨[], []⟩ : FS).files ∧
    lookupVersion (addComponents ["form"] "proj/src/components"
        ⟨"src/components", [("switch", "2.0.0")]⟩ "2.0.0"
        (fun url => if url = componentUrl "form" then some "form-source" else none)
        (fun _ => true) ⟨[], []⟩).1.components "form" =
      lookupVersion [("switch", "2.0.0")] "form" :=
  c3_no_partial_install "proj/src/components" "2.0.0"
    (fun url => if url = componentUrl "form" then some "form-source" else none)
    (fun _ => true) ⟨"src/components", [("switch", "2.0.0")]⟩ ⟨[], []⟩
    "form" ["form"] (Or.inr (by decide))

/-- C4: per-identifier failures never abort the batch; after
`addComponents` the manifest entry of every identifier is the current
version exactly when the identifier was in the batch and its fetches and
writes all succeeded, and is otherwise exactly its pre-batch value. -/
theorem c4_batch_isolation (comps : List String)
    (installPath currentVersion : String) (fetcher : String → Option String)
    (writeOk : String → Bool) (config : BogConfig) (fs : FS) (c : String) :
    installedVersion (addComponents comps installPath config currentVersion
        fetcher writeOk fs).1 c =
      if c ∈ comps ∧ addSucceeds installPath fetcher writeOk c = true then
        some currentVersion
      else installedVersion config c := by
  unfold installedVersion
  exact addComponents_lookup comps installPath config currentVersion fetcher
    writeOk fs c

/-- C5: every identifier passed to the removal routine ends with its
manifest entry deleted, for every filesystem state — in particular also
when its directory does not exist on disk. -/
theorem c5_removal_converges (comps : List String) (installPath : String)
    (config : BogConfig) (fs : FS) (c : String) (hc : c ∈ comps) :
    installedVersion (removeComponents comps installPath config fs).1 c =
      none := by
  unfold installedVersion
  rw [removeComponents_lookup, if_pos hc]

/-- C5 witness: removing `button` against an empty filesystem (its
directory was already deleted out-of-band) still deletes the manifest
entry. -/
theorem c5_removal_converges_witness :
    installedVersion (removeComponents ["button"] "proj/src/components"
        ⟨"src/components", [("button", "1.0.0")]⟩ ⟨[], []⟩).1 "button" =
      none :=
  c5_removal_converges ["button"] "proj/src/components"
    ⟨"src/components", [("button", "1.0.0")]⟩ ⟨[], []⟩ "button" (by decide)

/-- C6 counterexample: the sentinel can compare equal to a recorded version
string, because `"unknown"` itself can be recorded (see C9). A component
recorded at version `"unknown"` is not classified as outdated when the
remote version fetch fails again. -/
theorem c6_unknown_recorded_counterexample :
    getDesignSystemVersion none (fun _ => none) = "unknown" ∧
    installedVersion ⟨"src/components", [("button", "unknown")]⟩ "button" =
      some "unknown" ∧
    "button" ∉ outdatedComponents ⟨"src/components", [("button", "unknown")]⟩
      (getDesignSystemVersion none (fun _ => none)) := by decide

/-- C6 (amended): the version fetch never fails the caller and returns the
sentinel `"unknown"` on any network or parse failure, and when it fails
every installed component whose recorded version differs from the sentinel
(in particular every real version string) is classified as outdated; a
component whose recorded version is the sentinel itself is the exception. -/
theorem c6_unknown_version_safety (config : BogConfig) (c ver : String)
    (parseVersion : String → Option String)
    (hver : installedVersion config c = some ver) (hne : ver ≠ "unknown") :
    getDesignSystemVersion none parseVersion = "unknown" ∧
    (∀ body, getDesignSystemVersion (some (false, body)) parseVersion =
      "unknown") ∧
    (∀ body, parseVersion body = none →
      getDesignSystemVersion (some (true, body)) parseVersion = "unknown") ∧
    c ∈ outdatedComponents config (getDesignSystemVersion none parseVersion) := by
  refine ⟨rfl, fun body => rfl,
    fun body h => by simp [getDesignSystemVersion, h], ?_⟩
  unfold outdatedComponents
  rw [List.mem_filter]
  refine ⟨?_, ?_⟩
  · unfold existingComponents
    exact mem_keys_of_lookupVersion config.components c ver
      (by simpa [installedVersion] using hver)
  · have : installedVersion config c ≠ some (getDesignSystemVersion none
        parseVersion) := by
      rw [hver]
      exact fun h => hne (Option.some.inj h)
    simpa using this

/-- C6 witness: a manifest entry with real version `1.0.0` is classified as
outdated when the version fetch fails. -/
theorem c6_unknown_version_safety_witness :
    getDesignSystemVersion none (fun _ => none) = "unknown" ∧
    (∀ body, getDesignSystemVersion (some (false, body)) (fun _ => none) =
      "unknown") ∧
    (∀ body, (fun _ => (none : Option String)) body = none →
      getDesignSystemVersion (some (true, body)) (fun _ => none) = "unknown") ∧
    "button" ∈ outdatedComponents ⟨"src/components", [("button", "1.0.0")]⟩
      (getDesignSystemVersion none (fun _ => none)) :=
  c6_unknown_version_safety ⟨"src/components", [("button", "1.0.0")]⟩
    "button" "1.0.0" (fun _ => none) (by decide) (by decide)

/-- C7: reading the manifest distinguishes the three cases: a present,
parseable file returns the parsed manifest with no error output; a missing
file returns `null` silently; an unparseable file returns `null` after
logging a parse-error message — so the malformed outcome and the missing
outcome are observably different. -/
theorem c7_read_distinguishes (parseJson : String → Except String BogConfig)
    (good bad e : String) (cfg : BogConfig)
    (hok : parseJson good = Except.ok cfg)
    (herr : parseJson bad = Except.error e) :
    readBogConfig (some good) parseJson = (some cfg, []) ∧
    readBogConfig none parseJson = (none, []) ∧
    readBogConfig (some bad) parseJson =
      (none, ["Failed to read " ++ CONFIG_FILE_NAME ++ ": " ++ e]) ∧
    readBogConfig (some bad) parseJson ≠ readBogConfig none parseJson := by
  refine ⟨by simp [readBogConfig, hok], rfl, by simp [readBogConfig, herr], ?_⟩
  simp [readBogConfig, herr]

/-- C7 witness: a concrete parse oracle that accepts one body and rejects
another, showing the three outcomes concretely. -/
theorem c7_read_distinguishes_witness :
    readBogConfig (some "good-json")
        (fun s => if s = "good-json" then Except.ok ⟨"src/components", []⟩
          else Except.error "SyntaxError") =
      (some ⟨"src/components", []⟩, []) ∧
    readBogConfig none
        (fun s => if s = "good-json" then Except.ok ⟨"src/components", []⟩
          else Except.error "SyntaxError") = (none, []) ∧
    readBogConfig (some "not-json")
        (fun s => if s = "good-json" then Except.ok ⟨"src/components", []⟩
          else Except.error "SyntaxError") =
      (none, ["Failed to read " ++ CONFIG_FILE_NAME ++ ": " ++ "SyntaxError"]) ∧
    readBogConfig (some "not-json")
        (fun s => if s = "good-json" then Except.ok ⟨"src/components", []⟩
          else Except.error "SyntaxError") ≠
      readBogConfig none
        (fun s => if s = "good-json" then Except.ok ⟨"src/components", []⟩
          else Except.error "SyntaxError") :=
  c7_read_distinguishes
    (fun s => if s = "good-json" then Except.ok ⟨"src/components", []⟩
      else Except.error "SyntaxError")
    "good-json" "not-json" "SyntaxError" ⟨"src/components", []⟩ rfl rfl

/-- C8 counterexample: the transform does not map an identifier to its bare
PascalCase stem: `radio-group` maps to `BogRadioGroup`, not `RadioGroup`. -/
theorem c8_folder_name_counterexample :
    folderName "radio-group" = "BogRadioGroup" ∧
    folderName "radio-group" ≠ "RadioGroup" := by decide

/-- C8 (amended): the kebab-case transform is one fixed deterministic
function, bit-identical at its three use sites (add/update in
`addComponents`, removal in `removeComponents` of `edit.ts`, and the
removal loop of `remove.ts`), and it maps an identifier to `"Bog"` followed
by its PascalCase stem, e.g. `radio-group` to `BogRadioGroup`. -/
theorem c8_folder_name_deterministic :
    (∀ component, folderName component = folderNameRemove component) ∧
    (∀ component, folderName component = folderNameRemoveCommand component) ∧
    folderName "radio-group" = "BogRadioGroup" :=
  ⟨fun _ => rfl, fun _ => rfl, by decide⟩

/-- C9: the add/update routine records the current version string verbatim,
including the sentinel `"unknown"`; a component installed while the version
fetch failed carries `version: "unknown"`, and on a later run whose version
fetch also fails it compares equal to the sentinel and is not classified as
outdated. -/
theorem c9_unknown_version_persisted (comps : List String)
    (installPath : String) (fetcher : String → Option String)
    (writeOk : String → Bool) (config : BogConfig) (fs : FS) (c : String)
    (hc : c ∈ comps)
    (hs : addSucceeds installPath fetcher writeOk c = true) :
    installedVersion (addComponents comps installPath config "unknown"
        fetcher writeOk fs).1 c = some "unknown" ∧
    c ∉ outdatedComponents (addComponents comps installPath config "unknown"
        fetcher writeOk fs).1 "unknown" := by
  have hlook : installedVersion (addComponents comps installPath config
      "unknown" fetcher writeOk fs).1 c = some "unknown" := by
    unfold installedVersion
    rw [addComponents_lookup, if_pos ⟨hc, hs⟩]
  refine ⟨hlook, ?_⟩
  unfold outdatedComponents
  rw [List.mem_filter]
  rintro ⟨hmem, hcond⟩
  rw [hlook] at hcond
  simp at hcond

/-- C9 witness: installing `button` with every fetch and write succeeding
while the current version is the sentinel records `version: "unknown"`, and
the component is not outdated against the sentinel. -/
theorem c9_unknown_version_persisted_witness :
    installedVersion (addComponents ["button"] "proj/src/components"
        ⟨"src/components", []⟩ "unknown" (fun _ => some "body")
        (fun _ => true) ⟨[], []⟩).1 "button" = some "unknown" ∧
    "button" ∉ outdatedComponents (addComponents ["button"]
        "proj/src/components" ⟨"src/components", []⟩ "unknown"
        (fun _ => some "body") (fun _ => true) ⟨[], []⟩).1 "unknown" :=
  c9_unknown_version_persisted ["button"] "proj/src/components"
    (fun _ => some "body") (fun _ => true) ⟨"src/components", []⟩ ⟨[], []⟩
    "button" (by decide) (by decide)

/-- C10: the destination directory is created before any fetch, so when
both fetches for a component fail, the directory is present afterwards
while no file was written and the manifest is unchanged; in particular if
the directory was absent before, the filesystem is not left fully
unchanged. -/
theorem c10_dir_created_on_failure (installPath currentVersion : String)
    (fetcher : String → Option String) (writeOk : String → Bool)
    (config : BogConfig) (fs : FS) (component : String)
    (h1 : fetcher (componentUrl component) = none)
    (h2 : fetcher (stylesUrl component) = none) :
    pathJoin installPath (folderName component) ∈
      (addOne installPath currentVersion fetcher writeOk (config, fs)
        component).2.dirs ∧
    (addOne installPath currentVersion fetcher writeOk (config, fs)
      component).2.files = fs.files ∧
    (addOne installPath currentVersion fetcher writeOk (config, fs)
      component).1 = config ∧
    (pathJoin installPath (folderName component) ∉ fs.dirs →
      (addOne installPath currentVersion fetcher writeOk (config, fs)
        component).2 ≠ fs) := by
  have hres : addOne installPath currentVersion fetcher writeOk (config, fs)
      component =
      (config,
        if fs.existsDir (pathJoin installPath (folderName component)) then fs
        else fs.mkdir (pathJoin installPath (folderName component))) := by
    unfold addOne
    rw [h1]
  rw [hres]
  refine ⟨?_, ?_, rfl, ?_⟩
  · by_cases hex : fs.existsDir (pathJoin installPath (folderName component))
    · rw [if_pos hex]
      exact List.elem_iff.mp hex
    · rw [if_neg hex]
      exact List.mem_cons_self _ _
  · by_cases hex : fs.existsDir (pathJoin installPath (folderName component))
    · rw [if_pos hex]
    · rw [if_neg hex]
      rfl
  · intro hnot
    have hex : ¬ (fs.existsDir (pathJoin installPath (folderName component)) =
        true) := fun h => hnot (List.elem_iff.mp h)
    rw [if_neg hex]
    intro heq
    exact List.cons_ne_self _ _ (congrArg FS.dirs heq)

/-- C10 witness: both fetches failing for `form` on an empty filesystem
leaves an empty `BogForm` directory, no files, and an unchanged manifest. -/
theorem c10_dir_created_on_failure_witness :
    pathJoin "proj/src/components" (folderName "form") ∈
      (addOne "proj/src/components" "2.0.0" (fun _ => none) (fun _ => true)
        (⟨"src/components", []⟩, ⟨[], []⟩) "form").2.dirs ∧
    (addOne "proj/src/components" "2.0.0" (fun _ => none) (fun _ => true)
      (⟨"src/components", []⟩, ⟨[], []⟩) "form").2.files =
      (⟨[], []⟩ : FS).files ∧
    (addOne "proj/src/components" "2.0.0" (fun _ => none) (fun _ => true)
      (⟨"src/components", []⟩, ⟨[], []⟩) "form").1 =
      ⟨"src/components", []⟩ ∧
    (pathJoin "proj/src/components" (folderName "form") ∉ (⟨[], []⟩ : FS).dirs →
      (addOne "proj/src/components" "2.0.0" (fun _ => none) (fun _ => true)
        (⟨"src/components", []⟩, ⟨[], []⟩) "form").2 ≠ (⟨[], []⟩ : FS)) :=
  c10_dir_created_on_failure "proj/src/components" "2.0.0" (fun _ => none)
    (fun _ => true) ⟨"src/components", []⟩ ⟨[], []⟩ "form" rfl rfl
